import Mathlib

/-!
Shallow embedding of the auto-quote aggregation backend
(QuoteController.getQuotes, ProviderService, VehicleService, the config
module, request validation and the response cache), together with proofs
of the behavioural claims about the aggregation pipeline.

Numbers that the JavaScript source manipulates (prices, markups, factors)
are modelled as rationals; `Math.round` is modelled as rounding half toward
positive infinity, which is its behaviour on the (decimal) values arising
here.
-/

namespace AutoQuote

/-- Product types accepted by the validation middleware and used by the
provider configuration. -/
inductive ProductType
  | vsc
  | gap
  | tire
  | dent
deriving DecidableEq, Repr

/-- Provider identifiers: the keys of `providerConfig.providers` in the
config module, in `Object.keys` order. -/
inductive ProviderId
  | providerA
  | providerB
  | providerC
  | providerD
deriving DecidableEq, Repr

/-- String form of a provider key, used in generated product ids and URLs. -/
def ProviderId.keyName : ProviderId → String
  | .providerA => "providerA"
  | .providerB => "providerB"
  | .providerC => "providerC"
  | .providerD => "providerD"

/-- One entry of `providerConfig.providers` (the fields the pipeline reads). -/
structure Provider where
  name : String
  products : List ProductType
  markup : ℚ
  priority : ℕ
deriving DecidableEq, Repr

/-- The static provider registry `providerConfig.providers` from the config
module. -/
def providerConfig : ProviderId → Provider
  | .providerA => { name := "Provider A", products := [.vsc, .gap], markup := 1.2, priority := 1 }
  | .providerB => { name := "Provider B", products := [.vsc, .tire, .dent], markup := 1.15, priority := 2 }
  | .providerC => { name := "Provider C", products := [.gap], markup := 1.25, priority := 3 }
  | .providerD => { name := "Provider D", products := [.tire, .dent], markup := 1.3, priority := 4 }

/-- `Object.keys(providerConfig.providers)` in insertion order. -/
def allProviderIds : List ProviderId := [.providerA, .providerB, .providerC, .providerD]

/-- The `stateRestrictions` config object: gap is restricted in NY and CA,
vsc has an empty restriction list; tire and dent have no key at all, which
the controller's truthiness check treats as unrestricted. -/
def stateRestrictions : ProductType → List String
  | .gap => ["NY", "CA"]
  | _ => []

/-- JS `Math.round`: round half toward positive infinity. -/
def jsRound (q : ℚ) : ℤ := Int.floor (q + 1 / 2)

/-- The controller's two-decimal rounding: `Math.round(x * 100) / 100`. -/
def round2 (q : ℚ) : ℚ := (jsRound (q * 100) : ℚ) / 100

/-- Vehicle details object returned by `VehicleService.getVehicleDetails`. -/
structure VehicleDetails where
  vin : String
  year : ℤ
  make : String
  model : String
  trim : String
  body_style : String
  engine : String
  transmission : String
deriving DecidableEq, Repr

namespace VehicleService

/-- The year-code table of `decodeModelYear`. -/
def yearCodes : List (Char × ℤ) :=
  [('A', 2010), ('B', 2011), ('C', 2012), ('D', 2013), ('E', 2014),
   ('F', 2015), ('G', 2016), ('H', 2017), ('J', 2018), ('K', 2019),
   ('L', 2020), ('M', 2021), ('N', 2022), ('P', 2023), ('R', 2024)]

/-- `decodeModelYear`: table lookup with fallback 2018 (`|| 2018`; no table
value is falsy, so `||` is exactly the missing-key fallback). -/
def decodeModelYear (c : Char) : ℤ := (yearCodes.lookup c).getD 2018

/-- The make-code table of `decodeMake`. -/
def makeCodes : List (Char × String) :=
  [('A', "Audi"), ('B', "BMW"), ('C', "Chevrolet"), ('D', "Dodge"),
   ('F', "Ford"), ('G', "GMC"), ('H', "Honda"), ('J', "Jeep"),
   ('K', "Kia"), ('L', "Lincoln"), ('M', "Mercedes"), ('N', "Nissan"),
   ('T', "Toyota"), ('V', "Volkswagen")]

/-- `decodeMake`: table lookup with fallback "Ford". -/
def decodeMake (c : Char) : String := (makeCodes.lookup c).getD "Ford"

/-- The model-code table of `decodeModel`. -/
def modelMap : List (String × String) :=
  [("F15", "F-150"), ("CRV", "CR-V"), ("CIV", "Civic"), ("ACC", "Accord"),
   ("CAM", "Camry"), ("RAV", "RAV4"), ("SIL", "Silverado"), ("EQU", "Equinox"),
   ("ESC", "Escape"), ("EXP", "Explorer")]

/-- `decodeModel`: table lookup with fallback "F-150". -/
def decodeModel (s : String) : String := (modelMap.lookup s).getD "F-150"

/-- `VehicleService.getVehicleDetails`: null unless the VIN has exactly 17
characters (the `!vin` guard is subsumed, since an empty string has length
0); otherwise decode year from character 9, make from character 1 and model
from characters 3..5, with hardcoded remaining fields. -/
def getVehicleDetails (vin : String) : Option VehicleDetails :=
  if vin.length ≠ 17 then none
  else
    some { vin := vin
           year := decodeModelYear (vin.toList.getD 9 ' ')
           make := decodeMake (vin.toList.getD 1 ' ')
           model := decodeModel (String.mk ((vin.toList.drop 3).take 3))
           trim := "XLT"
           body_style := "Sedan"
           engine := "2.0L I4"
           transmission := "Automatic" }

/-- The zip-code first-digit table of `getStateFromZip`. -/
def zipCodeTable : List (Char × String) :=
  [('0', "CT"), ('1', "NY"), ('2', "DC"), ('3', "FL"), ('4', "MI"),
   ('5', "LA"), ('6', "TX"), ('7', "TX"), ('8', "CO"), ('9', "CA")]

/-- `getStateFromZip`: look up the first character, defaulting to CA (also
for an empty string, whose `charAt(0)` is the missing key ''). -/
def getStateFromZip (zip : String) : String :=
  match zip.toList.head? with
  | none => "CA"
  | some c => (zipCodeTable.lookup c).getD "CA"

end VehicleService

/-- The `vehicle` part of the normalized provider request. -/
structure VehicleInfo where
  vin : String
  year : ℤ
  make : String
  model : String
  trim : String
  mileage : ℕ
deriving DecidableEq, Repr

/-- The `customer` part of the normalized provider request. -/
structure CustomerInfo where
  zip : String
  state : String
deriving DecidableEq, Repr

/-- The `dealer` part of the normalized provider request. -/
structure DealerInfo where
  id : String
  name : String
deriving DecidableEq, Repr

/-- The `options` part of the normalized provider request. -/
structure OptionsInfo where
  price : ℚ
  products : List ProductType
deriving DecidableEq, Repr

/-- The normalized provider request built by the controller. -/
structure ProviderRequest where
  vehicle : VehicleInfo
  customer : CustomerInfo
  dealer : DealerInfo
  options : OptionsInfo
deriving DecidableEq, Repr

/-- A term object `{months, miles}` of a raw quote (`miles` may be null). -/
structure QuoteTerm where
  months : ℕ
  miles : Option ℕ
deriving DecidableEq, Repr

/-- A coverage-object value: the boolean capability flags, or the numeric
`max_benefit` of GAP coverage. -/
inductive CoverageValue
  | flag (b : Bool)
  | amount (q : ℚ)
deriving DecidableEq, Repr

/-- A raw quote as produced by the provider simulation; the nested
`provider` descriptor is flattened into the three provider fields. -/
structure RawQuote where
  product_type : ProductType
  product_id : String
  providerId : String
  providerName : String
  logo_url : String
  name : String
  description : String
  term : QuoteTerm
  deductible : ℚ
  retail_price : ℚ
  dealer_cost : ℚ
  coverage : List (String × CoverageValue)
  exclusions : List String
  sample_contract_url : String
deriving DecidableEq, Repr

/-- The meta object attached to every simulated provider response. -/
structure ProviderMeta where
  vehicle_eligibility : String
  coverage_disclaimer : String
deriving DecidableEq, Repr

/-- A simulated provider response. -/
structure ProviderResponse where
  quotes : List RawQuote
  meta : ProviderMeta
deriving DecidableEq, Repr

namespace ProviderService

/-- `ageFactor = 1 + vehicleAge * 0.1` from generateVscQuotes. -/
def vscAgeFactor (vehicleAge : ℤ) : ℚ := 1 + (vehicleAge : ℚ) * 0.1

/-- `mileageFactor = 1 + (mileage / 20000) * 0.15` from generateVscQuotes. -/
def vscMileageFactor (mileage : ℕ) : ℚ := 1 + ((mileage : ℚ) / 20000) * 0.15

/-- Coverage flags of the Premium VSC tier. -/
def vscPremiumCoverage : List (String × CoverageValue) :=
  [("engine", .flag true), ("transmission", .flag true), ("drivetrain", .flag true),
   ("electrical", .flag true), ("steering", .flag true), ("suspension", .flag true),
   ("brakes", .flag true), ("air_conditioning", .flag true), ("fuel_system", .flag true),
   ("high_tech", .flag true)]

/-- Coverage flags of the Standard VSC tier. -/
def vscStandardCoverage : List (String × CoverageValue) :=
  [("engine", .flag true), ("transmission", .flag true), ("drivetrain", .flag true),
   ("electrical", .flag true), ("steering", .flag true), ("suspension", .flag true),
   ("brakes", .flag true), ("air_conditioning", .flag true), ("fuel_system", .flag false),
   ("high_tech", .flag false)]

/-- Coverage flags of the Basic VSC tier. -/
def vscBasicCoverage : List (String × CoverageValue) :=
  [("engine", .flag true), ("transmission", .flag true), ("drivetrain", .flag true),
   ("electrical", .flag false), ("steering", .flag true), ("suspension", .flag false),
   ("brakes", .flag true), ("air_conditioning", .flag false), ("fuel_system", .flag false),
   ("high_tech", .flag false)]

/-- `generateVscQuotes`: reject old or high-mileage vehicles outright, then
emit up to three independent tiers; each tier's `retail_price` is
`Math.round(base * ageFactor * mileageFactor)` and its `dealer_cost` is
`Math.round(basePrice * 0.6)` computed from the same unrounded base price.
The wall-clock `new Date().getFullYear()` is passed in as `currentYear`. -/
def generateVscQuotes (pid : ProviderId) (vehicle : VehicleInfo) (currentYear : ℤ) :
    List RawQuote :=
  if currentYear - vehicle.year > 12 ∨ vehicle.mileage > 150000 then []
  else
    (if currentYear - vehicle.year ≤ 7 ∧ vehicle.mileage ≤ 85000 then
      [{ product_type := .vsc
         product_id := pid.keyName ++ "_vsc_premium_36_36"
         providerId := pid.keyName
         providerName := (providerConfig pid).name
         logo_url := "https://example.com/logos/" ++ pid.keyName ++ ".png"
         name := "Premium Coverage"
         description := "Comprehensive coverage for your vehicle"
         term := { months := 36, miles := some 36000 }
         deductible := 100
         retail_price := (jsRound (800 * vscAgeFactor (currentYear - vehicle.year) * vscMileageFactor vehicle.mileage) : ℚ)
         dealer_cost := (jsRound (800 * vscAgeFactor (currentYear - vehicle.year) * vscMileageFactor vehicle.mileage * 0.6) : ℚ)
         coverage := vscPremiumCoverage
         exclusions := ["Normal wear and tear", "Maintenance items", "Pre-existing conditions"]
         sample_contract_url := "https://example.com/contracts/" ++ pid.keyName ++ "_premium_36_36.pdf" }]
     else []) ++
    (if currentYear - vehicle.year ≤ 10 ∧ vehicle.mileage ≤ 100000 then
      [{ product_type := .vsc
         product_id := pid.keyName ++ "_vsc_standard_48_48"
         providerId := pid.keyName
         providerName := (providerConfig pid).name
         logo_url := "https://example.com/logos/" ++ pid.keyName ++ ".png"
         name := "Standard Coverage"
         description := "Essential coverage for your vehicle"
         term := { months := 48, miles := some 48000 }
         deductible := 100
         retail_price := (jsRound (700 * vscAgeFactor (currentYear - vehicle.year) * vscMileageFactor vehicle.mileage) : ℚ)
         dealer_cost := (jsRound (700 * vscAgeFactor (currentYear - vehicle.year) * vscMileageFactor vehicle.mileage * 0.6) : ℚ)
         coverage := vscStandardCoverage
         exclusions := ["Normal wear and tear", "Maintenance items", "Pre-existing conditions",
                        "High-tech components"]
         sample_contract_url := "https://example.com/contracts/" ++ pid.keyName ++ "_standard_48_48.pdf" }]
     else []) ++
    (if currentYear - vehicle.year ≤ 12 ∧ vehicle.mileage ≤ 120000 then
      [{ product_type := .vsc
         product_id := pid.keyName ++ "_vsc_basic_60_60"
         providerId := pid.keyName
         providerName := (providerConfig pid).name
         logo_url := "https://example.com/logos/" ++ pid.keyName ++ ".png"
         name := "Basic Coverage"
         description := "Basic powertrain coverage for your vehicle"
         term := { months := 60, miles := some 60000 }
         deductible := 250
         retail_price := (jsRound (500 * vscAgeFactor (currentYear - vehicle.year) * vscMileageFactor vehicle.mileage) : ℚ)
         dealer_cost := (jsRound (500 * vscAgeFactor (currentYear - vehicle.year) * vscMileageFactor vehicle.mileage * 0.6) : ℚ)
         coverage := vscBasicCoverage
         exclusions := ["Normal wear and tear", "Maintenance items", "Pre-existing conditions",
                        "Electrical components", "High-tech components", "Suspension components"]
         sample_contract_url := "https://example.com/contracts/" ++ pid.keyName ++ "_basic_60_60.pdf" }]
     else [])

/-- `generateGapQuotes`: zero quotes when `options.price` is falsy (the
validated price is a number ≥ 0, so falsy means 0); otherwise two fixed
tiers over `base = price * 0.02`. -/
def generateGapQuotes (pid : ProviderId) (_vehicle : VehicleInfo) (_customer : CustomerInfo)
    (options : OptionsInfo) : List RawQuote :=
  if options.price = 0 then []
  else
    [{ product_type := .gap
       product_id := pid.keyName ++ "_gap_premium"
       providerId := pid.keyName
       providerName := (providerConfig pid).name
       logo_url := "https://example.com/logos/" ++ pid.keyName ++ ".png"
       name := "Premium GAP"
       description := "Comprehensive GAP coverage with insurance deductible coverage"
       term := { months := 36, miles := none }
       deductible := 0
       retail_price := (jsRound (options.price * 0.02 * 1.2) : ℚ)
       dealer_cost := (jsRound (options.price * 0.02 * 0.7) : ℚ)
       coverage := [("loan_payoff", .flag true), ("insurance_deductible", .flag true),
                    ("max_benefit", .amount 10000)]
       exclusions := ["Commercial vehicles", "Exotic vehicles", "Vehicles over $100,000"]
       sample_contract_url := "https://example.com/contracts/" ++ pid.keyName ++ "_gap_premium.pdf" },
     { product_type := .gap
       product_id := pid.keyName ++ "_gap_standard"
       providerId := pid.keyName
       providerName := (providerConfig pid).name
       logo_url := "https://example.com/logos/" ++ pid.keyName ++ ".png"
       name := "Standard GAP"
       description := "Basic GAP coverage"
       term := { months := 36, miles := none }
       deductible := 0
       retail_price := (jsRound (options.price * 0.02) : ℚ)
       dealer_cost := (jsRound (options.price * 0.02 * 0.6) : ℚ)
       coverage := [("loan_payoff", .flag true), ("insurance_deductible", .flag false),
                    ("max_benefit", .amount 7500)]
       exclusions := ["Commercial vehicles", "Exotic vehicles", "Vehicles over $100,000",
                      "Insurance deductible"]
       sample_contract_url := "https://example.com/contracts/" ++ pid.keyName ++ "_gap_standard.pdf" }]

/-- `generateTireQuotes`: two fixed-price tiers, independent of vehicle data. -/
def generateTireQuotes (pid : ProviderId) (_vehicle : VehicleInfo) (_customer : CustomerInfo) :
    List RawQuote :=
  [{ product_type := .tire
     product_id := pid.keyName ++ "_tire_premium"
     providerId := pid.keyName
     providerName := (providerConfig pid).name
     logo_url := "https://example.com/logos/" ++ pid.keyName ++ ".png"
     name := "Premium Tire & Wheel"
     description := "Comprehensive tire and wheel protection with roadside assistance"
     term := { months := 36, miles := none }
     deductible := 0
     retail_price := 495
     dealer_cost := 295
     coverage := [("tire_replacement", .flag true), ("wheel_replacement", .flag true),
                  ("roadside_assistance", .flag true)]
     exclusions := ["Racing or off-road use", "Cosmetic damage", "Pre-existing damage"]
     sample_contract_url := "https://example.com/contracts/" ++ pid.keyName ++ "_tire_premium.pdf" },
   { product_type := .tire
     product_id := pid.keyName ++ "_tire_basic"
     providerId := pid.keyName
     providerName := (providerConfig pid).name
     logo_url := "https://example.com/logos/" ++ pid.keyName ++ ".png"
     name := "Basic Tire & Wheel"
     description := "Basic tire and wheel protection"
     term := { months := 36, miles := none }
     deductible := 50
     retail_price := 395
     dealer_cost := 235
     coverage := [("tire_replacement", .flag true), ("wheel_replacement", .flag false),
                  ("roadside_assistance", .flag false)]
     exclusions := ["Racing or off-road use", "Cosmetic damage", "Pre-existing damage",
                    "Wheel replacement", "Roadside assistance"]
     sample_contract_url := "https://example.com/contracts/" ++ pid.keyName ++ "_tire_basic.pdf" }]

/-- `generateDentQuotes`: one fixed-price tier. -/
def generateDentQuotes (pid : ProviderId) (_vehicle : VehicleInfo) (_customer : CustomerInfo) :
    List RawQuote :=
  [{ product_type := .dent
     product_id := pid.keyName ++ "_dent_repair"
     providerId := pid.keyName
     providerName := (providerConfig pid).name
     logo_url := "https://example.com/logos/" ++ pid.keyName ++ ".png"
     name := "Dent & Ding Protection"
     description := "Paintless dent repair coverage"
     term := { months := 36, miles := none }
     deductible := 0
     retail_price := 395
     dealer_cost := 235
     coverage := [("paintless_dent_repair", .flag true), ("unlimited_repairs", .flag true)]
     exclusions := ["Dents larger than 4 inches", "Dents with paint damage",
                    "Pre-existing damage"]
     sample_contract_url := "https://example.com/contracts/" ++ pid.keyName ++ "_dent_repair.pdf" }]

/-- The quotes array assembled by `simulateProviderResponse`: for each
requested product type in request order, skip it unless the provider
supports it, else append that type's generated quotes. -/
def simulateQuotes (pid : ProviderId) (request : ProviderRequest) (currentYear : ℤ) :
    List RawQuote :=
  (request.options.products.map (fun pt =>
    if pt ∈ (providerConfig pid).products then
      match pt with
      | .vsc => generateVscQuotes pid request.vehicle currentYear
      | .gap => generateGapQuotes pid request.vehicle request.customer request.options
      | .tire => generateTireQuotes pid request.vehicle request.customer
      | .dent => generateDentQuotes pid request.vehicle request.customer
    else [])).flatten

/-- `simulateProviderResponse` (the deterministic MVP provider). -/
def simulateProviderResponse (pid : ProviderId) (request : ProviderRequest)
    (currentYear : ℤ) : ProviderResponse :=
  { quotes := simulateQuotes pid request currentYear
    meta := { vehicle_eligibility := "eligible"
              coverage_disclaimer :=
                "Coverage is subject to terms and conditions of the service contract." } }

/-- Insert an element into a list before the first entry whose key is not
smaller. Folding this over a list reproduces the stable (ES2019)
`Array.prototype.sort` with comparator `(a, b) => f(a) - f(b)`. -/
def insertSorted (f : α → ℚ) (x : α) : List α → List α
  | [] => [x]
  | y :: ys => if f x ≤ f y then x :: y :: ys else y :: insertSorted f x ys

/-- Stable sort ascending by the key `f`, modelling
`array.sort((a, b) => f(a) - f(b))`. -/
def sortByKey (f : α → ℚ) : List α → List α
  | [] => []
  | x :: xs => insertSorted f x (sortByKey f xs)

/-- `getEligibleProviders`: keep the providers (in `Object.keys` order)
whose supported products intersect the requested ones, then sort by
priority. -/
def getEligibleProviders (products : List ProductType) : List ProviderId :=
  sortByKey (fun pid => ((providerConfig pid).priority : ℚ))
    (allProviderIds.filter (fun pid =>
      products.any (fun p => decide (p ∈ (providerConfig pid).products))))

/-- The fan-out of `getQuotesFromAllProviders`: one settled entry per
eligible provider, in order. A provider call that throws is captured by the
per-call `.catch` and mapped to null (`none`); `fails` says which calls
throw. `Promise.all` waits for every entry, so the result list always has
one entry per eligible provider. -/
def providerResults (eligible : List ProviderId) (request : ProviderRequest)
    (currentYear : ℤ) (fails : ProviderId → Bool) :
    List (ProviderId × Option ProviderResponse) :=
  eligible.map (fun pid =>
    (pid, if fails pid then none else some (simulateProviderResponse pid request currentYear)))

/-- `getQuotesFromAllProviders`: eligibility filter plus fan-out. -/
def getQuotesFromAllProviders (request : ProviderRequest) (currentYear : ℤ)
    (fails : ProviderId → Bool) : List (ProviderId × Option ProviderResponse) :=
  providerResults (getEligibleProviders request.options.products) request currentYear fails

end ProviderService

/-- A customer-facing quote as assembled by the controller's merge step. -/
structure AggregatedQuote where
  id : String
  provider : String
  name : String
  term : ℕ
  mileage : Option ℕ
  deductible : ℚ
  price : ℚ
  coverage : List (String × CoverageValue)
  tags : List String
deriving DecidableEq, Repr

instance : Inhabited AggregatedQuote :=
  ⟨{ id := "", provider := "", name := "", term := 0, mileage := none, deductible := 0,
     price := 0, coverage := [], tags := [] }⟩

/-- The validated request body that `QuoteController.getQuotes` destructures
(after the Joi middleware replaced `req.body` with the validated value). -/
structure ValidatedBody where
  vin : String
  zip : String
  mileage : ℕ
  price : ℚ
  products : List ProductType
  dealer_id : Option String
deriving DecidableEq, Repr

/-- JS truthiness of the `dealer_id` value: present and a non-empty string
(Joi lets null and the empty string through, both falsy). -/
def dealerTruthy : Option String → Bool
  | none => false
  | some s => decide (s ≠ "")

/-- The per-quote record pushed into a product bucket: display fields of the
raw quote plus `price = Math.round(retail_price * markup * 100) / 100`, with
the markup of the provider the quote came from (`provider.markup || 1`; every
configured provider has a markup). Tags start empty. -/
def toAggregated (pid : ProviderId) (q : RawQuote) : AggregatedQuote :=
  { id := q.product_id
    provider := q.providerName
    name := q.name
    term := q.term.months
    mileage := q.term.miles
    deductible := q.deductible
    price := round2 (q.retail_price * (providerConfig pid).markup)
    coverage := q.coverage
    tags := [] }

/-- Contents of the bucket for product `p` after the merge loop: providers
in settled order, each provider's quotes in response order, keeping only
quotes of an available product type; a null provider result contributes
nothing. -/
def mergedBucket (results : List (ProviderId × Option ProviderResponse))
    (available : List ProductType) (p : ProductType) : List AggregatedQuote :=
  (results.map (fun pr =>
    match pr.2 with
    | none => []
    | some resp =>
      (resp.quotes.filter (fun q =>
        decide (q.product_type ∈ available) && decide (q.product_type = p))).map
        (toAggregated pr.1))).flatten

/-- Keys of a JS object built by successive assignment: first-occurrence
order with duplicates dropped. -/
def dedupKeys : List ProductType → List ProductType
  | [] => []
  | p :: ps => p :: (dedupKeys ps).filter (fun q => decide (q ≠ p))

/-- The tags pushed onto the quote at index `i` of a sorted bucket of
length `n`: "Best Value" at index 0, "Most Popular" at index
`min(1, n - 1)`, and "Dealer Recommended" at index 2 when the raw
`dealer_id` is truthy and the bucket has more than 2 quotes. -/
def tagsFor (dealer : Bool) (n i : ℕ) : List String :=
  (if i = 0 then ["Best Value"] else []) ++
  (if i = min 1 (n - 1) then ["Most Popular"] else []) ++
  (if dealer = true ∧ 2 < n ∧ i = 2 then ["Dealer Recommended"] else [])

/-- Walk a bucket appending each index's tags; `n` is the bucket length and
`i` the index of the head. -/
def applyTagsAux (dealer : Bool) (n : ℕ) : ℕ → List AggregatedQuote → List AggregatedQuote
  | _, [] => []
  | i, q :: qs => { q with tags := q.tags ++ tagsFor dealer n i } :: applyTagsAux dealer n (i + 1) qs

/-- The tagging pass run on a sorted bucket (a no-op on an empty bucket,
matching the early return for empty buckets). -/
def applyTags (dealer : Bool) (qs : List AggregatedQuote) : List AggregatedQuote :=
  applyTagsAux dealer qs.length 0 qs

/-- The `meta` object of a response envelope; `state_restrictions` is
`none` for the empty object `{}`. -/
structure ResponseMeta where
  vehicle_eligibility : String
  coverage_disclaimer : String
  state_restrictions : Option (List ProductType × String)
deriving DecidableEq, Repr

/-- A 200 response envelope: the product buckets (the spread of
`aggregatedQuotes`, keyed in first-occurrence order of the available
products) and the meta object. -/
structure Envelope where
  buckets : List (ProductType × List AggregatedQuote)
  meta : ResponseMeta
deriving DecidableEq, Repr

/-- Outcome of the controller: a 200 JSON envelope, or a 400 passed to the
error middleware. -/
inductive ControllerResult
  | ok (env : Envelope)
  | badRequest (msg : String)
deriving DecidableEq, Repr

/-- True exactly on the 200 outcome. -/
def ControllerResult.isOk : ControllerResult → Bool
  | .ok _ => true
  | .badRequest _ => false

/-- The requested products that are restricted in the resolved state. -/
def restrictedProducts (products : List ProductType) (state : String) : List ProductType :=
  products.filter (fun p => decide (state ∈ stateRestrictions p))

/-- The requested products kept after removing the restricted ones. -/
def availableProducts (products : List ProductType) (state : String) : List ProductType :=
  products.filter (fun p => decide (p ∉ restrictedProducts products state))

/-- The normalized provider request the controller builds. -/
def buildProviderRequest (b : ValidatedBody) (vd : VehicleDetails) (state : String)
    (available : List ProductType) : ProviderRequest :=
  { vehicle := { vin := b.vin, year := vd.year, make := vd.make, model := vd.model,
                 trim := vd.trim, mileage := b.mileage }
    customer := { zip := b.zip, state := state }
    dealer := { id := if dealerTruthy b.dealer_id then b.dealer_id.getD "direct" else "direct"
                name := if dealerTruthy b.dealer_id then "Dealer Partner" else "Direct Consumer" }
    options := { price := b.price, products := available } }

/-- The short-circuit envelope returned when no requested product survives
the state-restriction filter. -/
def ineligibleEnvelope (restricted : List ProductType) (state : String) : Envelope :=
  { buckets := []
    meta := { vehicle_eligibility := "ineligible"
              coverage_disclaimer := "No products available in your state."
              state_restrictions := some (restricted, state) } }

/-- The full 200 envelope of the eligible path: per available product, the
merged bucket sorted by price and tagged; `state_restrictions` is the empty
object when nothing was restricted. -/
def eligibleEnvelope (dealer : Option String) (available restricted : List ProductType)
    (state : String) (results : List (ProviderId × Option ProviderResponse)) : Envelope :=
  { buckets := (dedupKeys available).map (fun p =>
      (p, applyTags (dealerTruthy dealer)
            (ProviderService.sortByKey (fun q => q.price) (mergedBucket results available p))))
    meta := { vehicle_eligibility := "eligible"
              coverage_disclaimer :=
                "Coverage is subject to terms and conditions of the service contract."
              state_restrictions :=
                if restricted = [] then none else some (restricted, state) } }

/-- Error message of the unreachable invalid-VIN branch. -/
def invalidVinMessage : String := "Invalid VIN or vehicle details not found"

namespace QuoteController

/-- `QuoteController.getQuotes` on a cache miss (the cache wrapper is
modelled separately by `getQuotesCached`). Returns the controller result
together with the list of providers whose clients were invoked.
`currentYear` models the wall clock read by the VSC generator and `fails`
models which provider calls throw. -/
def getQuotes (b : ValidatedBody) (currentYear : ℤ) (fails : ProviderId → Bool) :
    ControllerResult × List ProviderId :=
  match VehicleService.getVehicleDetails b.vin with
  | none => (.badRequest invalidVinMessage, [])
  | some vd =>
    if availableProducts b.products (VehicleService.getStateFromZip b.zip) = [] then
      (.ok (ineligibleEnvelope
              (restrictedProducts b.products (VehicleService.getStateFromZip b.zip))
              (VehicleService.getStateFromZip b.zip)), [])
    else
      (.ok (eligibleEnvelope b.dealer_id
              (availableProducts b.products (VehicleService.getStateFromZip b.zip))
              (restrictedProducts b.products (VehicleService.getStateFromZip b.zip))
              (VehicleService.getStateFromZip b.zip)
              (ProviderService.providerResults
                (ProviderService.getEligibleProviders
                  (availableProducts b.products (VehicleService.getStateFromZip b.zip)))
                (buildProviderRequest b vd (VehicleService.getStateFromZip b.zip)
                  (availableProducts b.products (VehicleService.getStateFromZip b.zip)))
                currentYear fails)),
       ProviderService.getEligibleProviders
         (availableProducts b.products (VehicleService.getStateFromZip b.zip)))

end QuoteController

/-- The unsorted fan-out contents of the bucket for product `p`: providers
in settled (priority) order, each provider's quotes in response order. The
tagged bucket in the response is the stable price sort of this list. -/
def fanoutBucket (b : ValidatedBody) (currentYear : ℤ) (fails : ProviderId → Bool)
    (p : ProductType) : List AggregatedQuote :=
  match VehicleService.getVehicleDetails b.vin with
  | none => []
  | some vd =>
    mergedBucket
      (ProviderService.providerResults
        (ProviderService.getEligibleProviders
          (availableProducts b.products (VehicleService.getStateFromZip b.zip)))
        (buildProviderRequest b vd (VehicleService.getStateFromZip b.zip)
          (availableProducts b.products (VehicleService.getStateFromZip b.zip)))
        currentYear fails)
      (availableProducts b.products (VehicleService.getStateFromZip b.zip)) p

/-- The bucket stored under product `p` in a controller result ([] when the
key is absent or the result is an error). Used to state concrete runs. -/
def bucketFor (r : ControllerResult) (p : ProductType) : List AggregatedQuote :=
  match r with
  | .badRequest _ => []
  | .ok env =>
    match env.buckets.find? (fun pr => decide (pr.1 = p)) with
    | some pr => pr.2
    | none => []

/-- A raw POST /api/quotes body before validation; `none` fields are absent
from the JSON (for `dealer_id`, absent-or-null, which behave identically
downstream). Products arrive as arbitrary strings. -/
structure RequestBody where
  vin : Option String
  zip : Option String
  mileage : Option ℤ
  price : Option ℚ
  products : Option (List String)
  dealer_id : Option String
deriving DecidableEq, Repr

/-- Map a product token string to its product type, if valid. -/
def productTokenOf (s : String) : Option ProductType :=
  if s = "vsc" then some .vsc
  else if s = "gap" then some .gap
  else if s = "tire" then some .tire
  else if s = "dent" then some .dent
  else none

/-- The Joi schema of `validateQuoteRequest`: vin (length 17), zip (5
digits), mileage (integer ≥ 0) and price (≥ 0) are required; `products`
is optional and DEFAULTS to `["vsc"]` when absent; each supplied product
must be a valid token; dealer_id may be absent, null or any string.
`none` is the 400 "Invalid request data" outcome. -/
def validateQuoteRequest (b : RequestBody) : Option ValidatedBody :=
  match b.vin, b.zip, b.mileage, b.price with
  | some v, some z, some m, some pr =>
    if v.length = 17 ∧ z.length = 5 ∧ z.toList.all Char.isDigit ∧ 0 ≤ m ∧ 0 ≤ pr then
      match b.products with
      | none =>
        some { vin := v, zip := z, mileage := m.toNat, price := pr,
               products := [.vsc], dealer_id := b.dealer_id }
      | some ps =>
        match ps.mapM productTokenOf with
        | some pts =>
          some { vin := v, zip := z, mileage := m.toNat, price := pr,
                 products := pts, dealer_id := b.dealer_id }
        | none => none
    else none
  | _, _, _, _ => none

/-- The POST /api/quotes route: validation middleware, then the controller. -/
def postQuotes (b : RequestBody) (currentYear : ℤ) (fails : ProviderId → Bool) :
    ControllerResult × List ProviderId :=
  match validateQuoteRequest b with
  | none => (.badRequest "Invalid request data", [])
  | some vb => QuoteController.getQuotes vb currentYear fails

/-- The cache-key fingerprint
`quotes:vin:zip:mileage:price:products.join(","):dealer`, modelled as the
tuple of interpolated fields; the dealer slot falls back to "none" when
`dealer_id` is falsy. -/
structure CacheKey where
  vin : String
  zip : String
  mileage : ℕ
  price : ℚ
  products : List ProductType
  dealer : String
deriving DecidableEq, Repr

/-- Fingerprint of a validated body. -/
def cacheKeyOf (b : ValidatedBody) : CacheKey :=
  { vin := b.vin, zip := b.zip, mileage := b.mileage, price := b.price,
    products := b.products,
    dealer := match b.dealer_id with
      | some s => if s = "" then "none" else s
      | none => "none" }

/-- The cache store: entries `(key, stored response, expiry time)`, newest
first. The stored response stands for its serialized JSON string: the hit
path `JSON.parse` then re-serialize is the identity on `JSON.stringify`
output, so byte-identity of responses is equality of stored values. -/
abbrev CacheState := List (CacheKey × Envelope × ℕ)

/-- `cacheService.get`: the newest entry for the key, unless its TTL has
elapsed (Redis `EX ttl` removes the key `ttl` seconds after the write). -/
def cacheGet : CacheState → CacheKey → ℕ → Option Envelope
  | [], _, _ => none
  | (k, v, e) :: rest, key, now =>
    if k = key then (if now < e then some v else none) else cacheGet rest key now

/-- `cacheService.set` with TTL 600: store the value under the key,
expiring 600 seconds after `now`. -/
def cacheSet (c : CacheState) (key : CacheKey) (v : Envelope) (expiry : ℕ) : CacheState :=
  (key, v, expiry) :: c

namespace QuoteController

/-- `QuoteController.getQuotes` including its cache wrapper: return the
cached envelope on a hit; on a miss run the pipeline, and cache (only) the
eligible 200 envelope with a 600-second TTL. -/
def getQuotesCached (c : CacheState) (now : ℕ) (b : ValidatedBody) (currentYear : ℤ)
    (fails : ProviderId → Bool) : (ControllerResult × List ProviderId) × CacheState :=
  match cacheGet c (cacheKeyOf b) now with
  | some env => ((.ok env, []), c)
  | none =>
    match VehicleService.getVehicleDetails b.vin with
    | none => ((.badRequest invalidVinMessage, []), c)
    | some vd =>
      if availableProducts b.products (VehicleService.getStateFromZip b.zip) = [] then
        ((.ok (ineligibleEnvelope
                 (restrictedProducts b.products (VehicleService.getStateFromZip b.zip))
                 (VehicleService.getStateFromZip b.zip)), []), c)
      else
        ((.ok (eligibleEnvelope b.dealer_id
                 (availableProducts b.products (VehicleService.getStateFromZip b.zip))
                 (restrictedProducts b.products (VehicleService.getStateFromZip b.zip))
                 (VehicleService.getStateFromZip b.zip)
                 (ProviderService.providerResults
                   (ProviderService.getEligibleProviders
                     (availableProducts b.products (VehicleService.getStateFromZip b.zip)))
                   (buildProviderRequest b vd (VehicleService.getStateFromZip b.zip)
                     (availableProducts b.products (VehicleService.getStateFromZip b.zip)))
                   currentYear fails)),
          ProviderService.getEligibleProviders
            (availableProducts b.products (VehicleService.getStateFromZip b.zip))),
         cacheSet c (cacheKeyOf b)
           (eligibleEnvelope b.dealer_id
             (availableProducts b.products (VehicleService.getStateFromZip b.zip))
             (restrictedProducts b.products (VehicleService.getStateFromZip b.zip))
             (VehicleService.getStateFromZip b.zip)
             (ProviderService.providerResults
               (ProviderService.getEligibleProviders
                 (availableProducts b.products (VehicleService.getStateFromZip b.zip)))
               (buildProviderRequest b vd (VehicleService.getStateFromZip b.zip)
                 (availableProducts b.products (VehicleService.getStateFromZip b.zip)))
               currentYear fails))
           (now + 600))

end QuoteController

/-- Element at index `i` of a list, modelling JS array indexing. -/
def listNth : List α → ℕ → Option α
  | [], _ => none
  | a :: _, 0 => some a
  | _ :: l, n + 1 => listNth l n

/-- Erase the tags of a quote (for relating tagged and untagged buckets). -/
def eraseTags (q : AggregatedQuote) : AggregatedQuote := { q with tags := [] }

/-- A concrete validated request used to exercise the pipeline: a 17-char
VIN decoding to a 2013 Ford F-150, a Florida zip (no restrictions), one
requested product and a truthy dealer id. -/
def sampleBody : ValidatedBody :=
  { vin := "1FTFW1ET5DFC10312", zip := "33101", mileage := 30000, price := 25000,
    products := [.vsc], dealer_id := some "d123" }

/-- The no-failure fan-out oracle: every provider call succeeds. -/
def noFailure : ProviderId → Bool := fun _ => false

/-- Extract the envelope of a 200 result (dummy envelope on the error arm,
which the uses below never hit). -/
def envOf : ControllerResult → Envelope
  | .ok env => env
  | .badRequest _ => ineligibleEnvelope [] ""

/-- The envelope computed for the sample request in year 2020. -/
def sampleEnv : Envelope := envOf (QuoteController.getQuotes sampleBody 2020 noFailure).1

/-- The vsc bucket of the sample envelope (it has six quotes). -/
def sampleBucket : List AggregatedQuote :=
  bucketFor (QuoteController.getQuotes sampleBody 2020 noFailure).1 .vsc

/-- The first quote of the sample vsc bucket. -/
def sampleQuote : AggregatedQuote := sampleBucket.headI

/-- A request whose dealer_id is the literal string "direct". -/
def directDealerBody : ValidatedBody :=
  { vin := "1FTFW1ET5DFC10312", zip := "33101", mileage := 30000, price := 25000,
    products := [.vsc], dealer_id := some "direct" }

/-- A request in which every requested product is restricted: gap in a CA
zip code. -/
def restrictedBody : ValidatedBody :=
  { vin := "1FTFW1ET5DFC10312", zip := "90210", mileage := 0, price := 1000,
    products := [.gap], dealer_id := none }

/-- A vehicle whose age is 0 and mileage 100 in 2026: the premium VSC tier
has base price 800.6, where the two dealer-cost formulas disagree. -/
def c6Vehicle : VehicleInfo :=
  { vin := "1FTFW1ET5DFC10312", year := 2026, make := "Ford", model := "F-150",
    trim := "XLT", mileage := 100 }

instance : Inhabited RawQuote :=
  ⟨{ product_type := .vsc, product_id := "", providerId := "", providerName := "",
     logo_url := "", name := "", description := "", term := { months := 0, miles := none },
     deductible := 0, retail_price := 0, dealer_cost := 0, coverage := [], exclusions := [],
     sample_contract_url := "" }⟩

/-- The first VSC quote generated for `c6Vehicle` by provider A in 2026. -/
def c6Quote : RawQuote :=
  (ProviderService.generateVscQuotes .providerA c6Vehicle 2026).headI

/-- An otherwise-valid raw body with the products field absent. -/
def noProductsBody : RequestBody :=
  { vin := some "1FTFW1ET5DFC10312", zip := some "33101", mileage := some 30000,
    price := some 25000, products := none, dealer_id := none }

/-- A raw body with the vin field absent. -/
def noVinBody : RequestBody :=
  { vin := none, zip := some "33101", mileage := some 30000,
    price := some 25000, products := some ["vsc"], dealer_id := none }

/-- The envelope computed on the eligible path for a body whose VIN decoded
to `vd` (the expression shared by `getQuotes` and `getQuotesCached`). -/
def pipelineEnv (b : ValidatedBody) (vd : VehicleDetails) (year : ℤ)
    (fails : ProviderId → Bool) : Envelope :=
  eligibleEnvelope b.dealer_id
    (availableProducts b.products (VehicleService.getStateFromZip b.zip))
    (restrictedProducts b.products (VehicleService.getStateFromZip b.zip))
    (VehicleService.getStateFromZip b.zip)
    (ProviderService.providerResults
      (ProviderService.getEligibleProviders
        (availableProducts b.products (VehicleService.getStateFromZip b.zip)))
      (buildProviderRequest b vd (VehicleService.getStateFromZip b.zip)
        (availableProducts b.products (VehicleService.getStateFromZip b.zip)))
      year fails)

theorem listNth_mem : ∀ {l : List α} {i : ℕ} {a : α}, listNth l i = some a → a ∈ l := by
  intro l
  induction l with
  | nil => intro i a h; cases h
  | cons x xs ih =>
    intro i a h
    cases i with
    | zero => cases h; exact List.mem_cons_self x xs
    | succ i => exact List.mem_cons_of_mem x (ih h)

theorem mem_listNth : ∀ {l : List α} {a : α}, a ∈ l → ∃ i, listNth l i = some a := by
  intro l
  induction l with
  | nil => intro a h; cases h
  | cons x xs ih =>
    intro a h
    rcases List.mem_cons.mp h with rfl | h
    · exact ⟨0, rfl⟩
    · obtain ⟨i, hi⟩ := ih h
      exact ⟨i + 1, hi⟩

theorem listNth_some_of_lt : ∀ {l : List α} {i : ℕ}, i < l.length → ∃ a, listNth l i = some a := by
  intro l
  induction l with
  | nil => intro i h; cases h
  | cons x xs ih =>
    intro i h
    cases i with
    | zero => exact ⟨x, rfl⟩
    | succ i => exact ih (Nat.lt_of_succ_lt_succ h)

namespace ProviderService

theorem mem_insertSorted (f : α → ℚ) (x a : α) (l : List α) :
    a ∈ insertSorted f x l ↔ a = x ∨ a ∈ l := by
  induction l with
  | nil => simp [insertSorted]
  | cons y ys ih =>
    simp only [insertSorted]
    split
    · simp [List.mem_cons]
    · simp only [List.mem_cons, ih]
      tauto

theorem mem_sortByKey (f : α → ℚ) (a : α) (l : List α) :
    a ∈ sortByKey f l ↔ a ∈ l := by
  induction l with
  | nil => simp [sortByKey]
  | cons x xs ih =>
    simp only [sortByKey, mem_insertSorted, List.mem_cons, ih]

theorem pairwise_insertSorted (f : α → ℚ) (x : α) (l : List α)
    (h : l.Pairwise (fun a b => f a ≤ f b)) :
    (insertSorted f x l).Pairwise (fun a b => f a ≤ f b) := by
  induction l with
  | nil => simp [insertSorted]
  | cons y ys ih =>
    rw [List.pairwise_cons] at h
    obtain ⟨hy, hys⟩ := h
    simp only [insertSorted]
    split
    · rename_i hle
      refine List.Pairwise.cons ?_ (List.Pairwise.cons hy hys)
      intro b hb
      rcases List.mem_cons.mp hb with rfl | hb
      · exact hle
      · exact le_trans hle (hy b hb)
    · rename_i hgt
      refine List.Pairwise.cons ?_ (ih hys)
      intro b hb
      rcases (mem_insertSorted f x b ys).mp hb with rfl | hb
      · exact le_of_not_le hgt
      · exact hy b hb

theorem pairwise_sortByKey (f : α → ℚ) (l : List α) :
    (sortByKey f l).Pairwise (fun a b => f a ≤ f b) := by
  induction l with
  | nil => simp [sortByKey]
  | cons x xs ih => exact pairwise_insertSorted f x _ ih

theorem filter_insertSorted (f : α → ℚ) (c : ℚ) (x : α) (l : List α) :
    (insertSorted f x l).filter (fun a => decide (f a = c)) =
      (x :: l).filter (fun a => decide (f a = c)) := by
  induction l with
  | nil => rfl
  | cons y ys ih =>
    simp only [insertSorted]
    split
    · rfl
    · rename_i hgt
      by_cases hx : f x = c
      · have hy : ¬ f y = c := fun hyc => hgt (by rw [hx, hyc])
        simp [List.filter_cons, hx, hy, ih]
      · by_cases hy : f y = c
        · simp [List.filter_cons, hx, hy, ih]
        · simp [List.filter_cons, hx, hy, ih]

theorem filter_sortByKey (f : α → ℚ) (c : ℚ) (l : List α) :
    (sortByKey f l).filter (fun a => decide (f a = c)) =
      l.filter (fun a => decide (f a = c)) := by
  induction l with
  | nil => rfl
  | cons x xs ih =>
    simp only [sortByKey, filter_insertSorted, List.filter_cons, ih]

end ProviderService

theorem length_applyTagsAux (d : Bool) (n : ℕ) :
    ∀ (j : ℕ) (l : List AggregatedQuote), (applyTagsAux d n j l).length = l.length := by
  intro j l
  induction l generalizing j with
  | nil => rfl
  | cons x xs ih => simp only [applyTagsAux, List.length_cons, ih]

theorem listNth_applyTagsAux (d : Bool) (n : ℕ) :
    ∀ (l : List AggregatedQuote) (j i : ℕ),
      listNth (applyTagsAux d n j l) i =
        (listNth l i).map (fun q => { q with tags := q.tags ++ tagsFor d n (j + i) }) := by
  intro l
  induction l with
  | nil => intro j i; rfl
  | cons x xs ih =>
    intro j i
    cases i with
    | zero => rfl
    | succ i =>
      show listNth (applyTagsAux d n (j + 1) xs) i = _
      rw [ih (j + 1) i]
      have hidx : j + 1 + i = j + (i + 1) := by omega
      rw [hidx]
      rfl

theorem listNth_applyTags (d : Bool) (l : List AggregatedQuote) (i : ℕ) :
    listNth (applyTags d l) i =
      (listNth l i).map (fun q => { q with tags := q.tags ++ tagsFor d l.length i }) := by
  have h := listNth_applyTagsAux d l.length l 0 i
  simpa using h

theorem length_applyTags (d : Bool) (l : List AggregatedQuote) :
    (applyTags d l).length = l.length :=
  length_applyTagsAux d l.length 0 l

theorem mem_applyTagsAux (d : Bool) (n : ℕ) (l : List AggregatedQuote) (j : ℕ)
    (q : AggregatedQuote) (hq : q ∈ applyTagsAux d n j l) :
    ∃ i q₀, listNth l i = some q₀ ∧
      q = { q₀ with tags := q₀.tags ++ tagsFor d n (j + i) } := by
  obtain ⟨i, hi⟩ := mem_listNth hq
  rw [listNth_applyTagsAux] at hi
  cases h0 : listNth l i with
  | none => rw [h0] at hi; cases hi
  | some q₀ =>
    rw [h0] at hi
    exact ⟨i, q₀, h0, (Option.some_injective _ hi).symm⟩

theorem mem_applyTags (d : Bool) (l : List AggregatedQuote) (q : AggregatedQuote)
    (hq : q ∈ applyTags d l) :
    ∃ i q₀, listNth l i = some q₀ ∧
      q = { q₀ with tags := q₀.tags ++ tagsFor d l.length i } := by
  obtain ⟨i, q₀, h0, hEq⟩ := mem_applyTagsAux d l.length l 0 q hq
  refine ⟨i, q₀, h0, ?_⟩
  simpa using hEq

theorem map_eraseTags_applyTagsAux (d : Bool) (n : ℕ) :
    ∀ (l : List AggregatedQuote) (j : ℕ),
      (applyTagsAux d n j l).map eraseTags = l.map eraseTags := by
  intro l
  induction l with
  | nil => intro j; rfl
  | cons x xs ih =>
    intro j
    simp only [applyTagsAux, List.map_cons, ih]
    rfl

theorem map_eraseTags_id (l : List AggregatedQuote) (h : ∀ q ∈ l, q.tags = []) :
    l.map eraseTags = l := by
  induction l with
  | nil => rfl
  | cons x xs ih =>
    have hx : x.tags = [] := h x (List.mem_cons_self x xs)
    have hxs := ih (fun q hq => h q (List.mem_cons_of_mem x hq))
    simp only [List.map_cons, hxs]
    have : eraseTags x = x := by
      cases x
      simp_all [eraseTags]
    rw [this]

theorem map_eraseTags_applyTags (d : Bool) (l : List AggregatedQuote)
    (h : ∀ q ∈ l, q.tags = []) :
    (applyTags d l).map eraseTags = l :=
  (map_eraseTags_applyTagsAux d l.length l 0).trans (map_eraseTags_id l h)

theorem pairwise_price_applyTagsAux (d : Bool) (n : ℕ) :
    ∀ (l : List AggregatedQuote) (j : ℕ),
      l.Pairwise (fun a b => a.price ≤ b.price) →
      (applyTagsAux d n j l).Pairwise (fun a b => a.price ≤ b.price) := by
  intro l
  induction l with
  | nil => intro j _; exact List.Pairwise.nil
  | cons x xs ih =>
    intro j h
    rw [List.pairwise_cons] at h
    obtain ⟨hx, hxs⟩ := h
    refine List.Pairwise.cons ?_ (ih (j + 1) hxs)
    intro b hb
    obtain ⟨i, q₀, h0, rfl⟩ := mem_applyTagsAux d n xs (j + 1) b hb
    exact hx q₀ (listNth_mem h0)

theorem bestValue_mem_tagsFor (d : Bool) (n : ℕ) : "Best Value" ∈ tagsFor d n 0 := by
  unfold tagsFor
  simp

theorem mostPopular_mem_tagsFor (d : Bool) (n : ℕ) :
    "Most Popular" ∈ tagsFor d n (min 1 (n - 1)) := by
  unfold tagsFor
  rw [List.mem_append, List.mem_append]
  refine Or.inl (Or.inr ?_)
  rw [if_pos rfl]
  exact List.mem_singleton.mpr rfl

theorem dealer_mem_tagsFor (d : Bool) (n i : ℕ) :
    ("Dealer Recommended" ∈ tagsFor d n i) ↔ (d = true ∧ 2 < n ∧ i = 2) := by
  unfold tagsFor
  split_ifs <;> rename_i hC <;>
    first
      | exact iff_of_true (by decide) hC
      | exact iff_of_false (by decide) hC

theorem tags_toAggregated (pid : ProviderId) (raw : RawQuote) :
    (toAggregated pid raw).tags = [] := rfl

theorem mem_mergedBucket (results : List (ProviderId × Option ProviderResponse))
    (available : List ProductType) (p : ProductType) (q : AggregatedQuote)
    (hq : q ∈ mergedBucket results available p) :
    ∃ pid resp raw, (pid, some resp) ∈ results ∧ raw ∈ resp.quotes ∧
      raw.product_type ∈ available ∧ raw.product_type = p ∧ q = toAggregated pid raw := by
  unfold mergedBucket at hq
  rw [List.mem_flatten] at hq
  obtain ⟨l, hl, hql⟩ := hq
  rw [List.mem_map] at hl
  obtain ⟨⟨pid, r⟩, hpr, rfl⟩ := hl
  cases r with
  | none => cases hql
  | some resp =>
    rw [List.mem_map] at hql
    obtain ⟨raw, hraw, rfl⟩ := hql
    rw [List.mem_filter] at hraw
    obtain ⟨hmem, hcond⟩ := hraw
    simp only [Bool.and_eq_true, decide_eq_true_eq] at hcond
    exact ⟨pid, resp, raw, hpr, hmem, hcond.1, hcond.2, rfl⟩

theorem tags_nil_mem_mergedBucket (results : List (ProviderId × Option ProviderResponse))
    (available : List ProductType) (p : ProductType) (q : AggregatedQuote)
    (hq : q ∈ mergedBucket results available p) : q.tags = [] := by
  obtain ⟨pid, resp, raw, -, -, -, -, rfl⟩ := mem_mergedBucket results available p q hq
  rfl

theorem mem_providerResults (eligible : List ProviderId) (request : ProviderRequest)
    (currentYear : ℤ) (fails : ProviderId → Bool) (pid : ProviderId)
    (r : Option ProviderResponse)
    (h : (pid, r) ∈ ProviderService.providerResults eligible request currentYear fails) :
    pid ∈ eligible ∧
      r = if fails pid then none
          else some (ProviderService.simulateProviderResponse pid request currentYear) := by
  unfold ProviderService.providerResults at h
  rw [List.mem_map] at h
  obtain ⟨pid', hmem, heq⟩ := h
  injection heq with e1 e2
  subst e1
  exact ⟨hmem, e2.symm⟩

theorem map_fst_providerResults (eligible : List ProviderId) (request : ProviderRequest)
    (currentYear : ℤ) (fails : ProviderId → Bool) :
    (ProviderService.providerResults eligible request currentYear fails).map Prod.fst =
      eligible := by
  unfold ProviderService.providerResults
  rw [List.map_map]
  exact List.map_id eligible

theorem providerName_generateVscQuotes (pid : ProviderId) (v : VehicleInfo) (year : ℤ)
    (q : RawQuote) (hq : q ∈ ProviderService.generateVscQuotes pid v year) :
    q.providerName = (providerConfig pid).name := by
  unfold ProviderService.generateVscQuotes at hq
  split at hq
  · cases hq
  · rw [List.mem_append, List.mem_append] at hq
    rcases hq with (h | h) | h <;>
    · split at h
      · rw [List.mem_singleton] at h
        subst h
        rfl
      · cases h

theorem providerName_generateGapQuotes (pid : ProviderId) (v : VehicleInfo)
    (c : CustomerInfo) (o : OptionsInfo) (q : RawQuote)
    (hq : q ∈ ProviderService.generateGapQuotes pid v c o) :
    q.providerName = (providerConfig pid).name := by
  unfold ProviderService.generateGapQuotes at hq
  split at hq
  · cases hq
  · rcases List.mem_cons.mp hq with rfl | h
    · rfl
    · rw [List.mem_singleton] at h
      subst h
      rfl

theorem providerName_generateTireQuotes (pid : ProviderId) (v : VehicleInfo)
    (c : CustomerInfo) (q : RawQuote)
    (hq : q ∈ ProviderService.generateTireQuotes pid v c) :
    q.providerName = (providerConfig pid).name := by
  unfold ProviderService.generateTireQuotes at hq
  rcases List.mem_cons.mp hq with rfl | h
  · rfl
  · rw [List.mem_singleton] at h
    subst h
    rfl

theorem providerName_generateDentQuotes (pid : ProviderId) (v : VehicleInfo)
    (c : CustomerInfo) (q : RawQuote)
    (hq : q ∈ ProviderService.generateDentQuotes pid v c) :
    q.providerName = (providerConfig pid).name := by
  unfold ProviderService.generateDentQuotes at hq
  rw [List.mem_singleton] at hq
  subst hq
  rfl

theorem providerName_simulate (pid : ProviderId) (request : ProviderRequest)
    (currentYear : ℤ) (q : RawQuote)
    (hq : q ∈ (ProviderService.simulateProviderResponse pid request currentYear).quotes) :
    q.providerName = (providerConfig pid).name := by
  have hq' : q ∈ ProviderService.simulateQuotes pid request currentYear := hq
  unfold ProviderService.simulateQuotes at hq'
  rw [List.mem_flatten] at hq'
  obtain ⟨l, hl, hql⟩ := hq'
  rw [List.mem_map] at hl
  obtain ⟨pt, hpt, rfl⟩ := hl
  split at hql
  · cases pt with
    | vsc => exact providerName_generateVscQuotes pid _ _ q hql
    | gap => exact providerName_generateGapQuotes pid _ _ _ q hql
    | tire => exact providerName_generateTireQuotes pid _ _ q hql
    | dent => exact providerName_generateDentQuotes pid _ _ q hql
  · cases hql

theorem getQuotes_ok_bucket (b : ValidatedBody) (year : ℤ) (fails : ProviderId → Bool)
    (env : Envelope) (p : ProductType) (qs : List AggregatedQuote)
    (h1 : (QuoteController.getQuotes b year fails).1 = ControllerResult.ok env)
    (h2 : (p, qs) ∈ env.buckets) :
    ∃ vd, VehicleService.getVehicleDetails b.vin = some vd ∧
      p ∈ dedupKeys (availableProducts b.products (VehicleService.getStateFromZip b.zip)) ∧
      qs = applyTags (dealerTruthy b.dealer_id)
        (ProviderService.sortByKey (fun q => q.price)
          (mergedBucket
            (ProviderService.providerResults
              (ProviderService.getEligibleProviders
                (availableProducts b.products (VehicleService.getStateFromZip b.zip)))
              (buildProviderRequest b vd (VehicleService.getStateFromZip b.zip)
                (availableProducts b.products (VehicleService.getStateFromZip b.zip)))
              year fails)
            (availableProducts b.products (VehicleService.getStateFromZip b.zip)) p)) := by
  unfold QuoteController.getQuotes at h1
  cases hvd : VehicleService.getVehicleDetails b.vin with
  | none =>
    rw [hvd] at h1
    dsimp only at h1
    cases h1
  | some vd =>
    rw [hvd] at h1
    dsimp only at h1
    by_cases hav :
        availableProducts b.products (VehicleService.getStateFromZip b.zip) = []
    · rw [if_pos hav] at h1
      dsimp only at h1
      injection h1 with henv
      rw [← henv] at h2
      cases h2
    · rw [if_neg hav] at h1
      dsimp only at h1
      injection h1 with henv
      rw [← henv] at h2
      unfold eligibleEnvelope at h2
      dsimp only at h2
      rw [List.mem_map] at h2
      obtain ⟨p', hp', heq⟩ := h2
      rw [Prod.mk.injEq] at heq
      obtain ⟨rfl, rfl⟩ := heq
      exact ⟨vd, rfl, hp', rfl⟩

theorem getVehicleDetails_some (vin : String) (h17 : vin.length = 17) :
    VehicleService.getVehicleDetails vin = some
      { vin := vin
        year := VehicleService.decodeModelYear (vin.toList.getD 9 ' ')
        make := VehicleService.decodeMake (vin.toList.getD 1 ' ')
        model := VehicleService.decodeModel (String.mk ((vin.toList.drop 3).take 3))
        trim := "XLT"
        body_style := "Sedan"
        engine := "2.0L I4"
        transmission := "Automatic" } := by
  unfold VehicleService.getVehicleDetails
  rw [if_neg (fun hne => hne h17)]

theorem getQuotes_isOk_of_vin17 (b : ValidatedBody) (year : ℤ) (fails : ProviderId → Bool)
    (h17 : b.vin.length = 17) :
    (QuoteController.getQuotes b year fails).1.isOk = true := by
  unfold QuoteController.getQuotes
  rw [getVehicleDetails_some b.vin h17]
  dsimp only
  by_cases hav : availableProducts b.products (VehicleService.getStateFromZip b.zip) = []
  · rw [if_pos hav]
    rfl
  · rw [if_neg hav]
    rfl

theorem bucket_quote_provenance (b : ValidatedBody) (year : ℤ) (fails : ProviderId → Bool)
    (env : Envelope) (p : ProductType) (qs : List AggregatedQuote) (q : AggregatedQuote)
    (h1 : (QuoteController.getQuotes b year fails).1 = ControllerResult.ok env)
    (h2 : (p, qs) ∈ env.buckets) (h3 : q ∈ qs) :
    ∃ vd pid raw,
      VehicleService.getVehicleDetails b.vin = some vd ∧
      fails pid = false ∧
      raw ∈ (ProviderService.simulateProviderResponse pid
        (buildProviderRequest b vd (VehicleService.getStateFromZip b.zip)
          (availableProducts b.products (VehicleService.getStateFromZip b.zip)))
        year).quotes ∧
      raw.product_type = p ∧
      q.id = raw.product_id ∧
      q.provider = raw.providerName ∧
      q.price = round2 (raw.retail_price * (providerConfig pid).markup) := by
  obtain ⟨vd, hvd, hp, rfl⟩ := getQuotes_ok_bucket b year fails env p qs h1 h2
  obtain ⟨i, q₀, h0, rfl⟩ := mem_applyTags _ _ q h3
  have hq0 := listNth_mem h0
  rw [ProviderService.mem_sortByKey] at hq0
  obtain ⟨pid, resp, raw, hres, hraw, hravail, hrtype, rfl⟩ :=
    mem_mergedBucket _ _ _ _ hq0
  obtain ⟨hmem, hr⟩ := mem_providerResults _ _ _ _ _ _ hres
  cases hfp : fails pid with
  | true =>
    rw [hfp] at hr
    simp at hr
  | false =>
    rw [hfp] at hr
    simp only [Bool.false_eq_true, if_false] at hr
    injection hr with hr
    subst hr
    exact ⟨vd, pid, raw, hvd, hfp, hraw, hrtype, rfl, rfl, rfl⟩

theorem cacheGet_none_mono (c : CacheState) (k : CacheKey) (t1 t2 : ℕ)
    (h : cacheGet c k t1 = none) (h12 : t1 ≤ t2) : cacheGet c k t2 = none := by
  induction c with
  | nil => rfl
  | cons entry rest ih =>
    obtain ⟨k', v, e⟩ := entry
    unfold cacheGet at h ⊢
    by_cases hk : k' = k
    · rw [if_pos hk] at h ⊢
      split at h
      · cases h
      · rename_i hte
        rw [if_neg (by omega)]
    · rw [if_neg hk] at h ⊢
      exact ih h

theorem getQuotesCached_missBadVin (c : CacheState) (now : ℕ) (b : ValidatedBody)
    (year : ℤ) (fails : ProviderId → Bool)
    (hmiss : cacheGet c (cacheKeyOf b) now = none)
    (hvd : VehicleService.getVehicleDetails b.vin = none) :
    QuoteController.getQuotesCached c now b year fails =
      ((ControllerResult.badRequest invalidVinMessage, []), c) := by
  unfold QuoteController.getQuotesCached
  rw [hmiss, hvd]

theorem getQuotesCached_missIneligible (c : CacheState) (now : ℕ) (b : ValidatedBody)
    (year : ℤ) (fails : ProviderId → Bool) (vd : VehicleDetails)
    (hmiss : cacheGet c (cacheKeyOf b) now = none)
    (hvd : VehicleService.getVehicleDetails b.vin = some vd)
    (hav : availableProducts b.products (VehicleService.getStateFromZip b.zip) = []) :
    QuoteController.getQuotesCached c now b year fails =
      ((ControllerResult.ok (ineligibleEnvelope
          (restrictedProducts b.products (VehicleService.getStateFromZip b.zip))
          (VehicleService.getStateFromZip b.zip)), []), c) := by
  unfold QuoteController.getQuotesCached
  rw [hmiss, hvd]
  dsimp only
  rw [if_pos hav]

theorem getQuotesCached_missEligible (c : CacheState) (now : ℕ) (b : ValidatedBody)
    (year : ℤ) (fails : ProviderId → Bool) (vd : VehicleDetails)
    (hmiss : cacheGet c (cacheKeyOf b) now = none)
    (hvd : VehicleService.getVehicleDetails b.vin = some vd)
    (hav : availableProducts b.products (VehicleService.getStateFromZip b.zip) ≠ []) :
    QuoteController.getQuotesCached c now b year fails =
      ((ControllerResult.ok (pipelineEnv b vd year fails),
        ProviderService.getEligibleProviders
          (availableProducts b.products (VehicleService.getStateFromZip b.zip))),
       cacheSet c (cacheKeyOf b) (pipelineEnv b vd year fails) (now + 600)) := by
  unfold QuoteController.getQuotesCached pipelineEnv
  rw [hmiss, hvd]
  dsimp only
  rw [if_neg hav]

section ClaimTheorems

attribute [local semireducible] Rat.add Rat.mul Rat.inv Rat.ofScientific Rat.sub

/-- C1: every quote placed in a product bucket by the aggregation
(QuoteController.getQuotes) has `price` equal to the raw quote's
`retail_price` times the producing provider's configured markup, rounded to
2 decimal places (`round2`). -/
theorem claim1_price_is_marked_up_retail (b : ValidatedBody) (year : ℤ)
    (fails : ProviderId → Bool) (env : Envelope) (p : ProductType)
    (qs : List AggregatedQuote) (q : AggregatedQuote)
    (h1 : (QuoteController.getQuotes b year fails).1 = ControllerResult.ok env)
    (h2 : (p, qs) ∈ env.buckets) (h3 : q ∈ qs) :
    ∃ vd pid raw,
      VehicleService.getVehicleDetails b.vin = some vd ∧
      raw ∈ (ProviderService.simulateProviderResponse pid
        (buildProviderRequest b vd (VehicleService.getStateFromZip b.zip)
          (availableProducts b.products (VehicleService.getStateFromZip b.zip)))
        year).quotes ∧
      q.id = raw.product_id ∧
      q.provider = raw.providerName ∧
      q.price = round2 (raw.retail_price * (providerConfig pid).markup) := by
  obtain ⟨vd, pid, raw, hvd, -, hraw, -, hid, hprov, hprice⟩ :=
    bucket_quote_provenance b year fails env p qs q h1 h2 h3
  exact ⟨vd, pid, raw, hvd, hraw, hid, hprov, hprice⟩

/-- Witness for C1 at the sample request. -/
theorem claim1_price_is_marked_up_retail_witness :
    (QuoteController.getQuotes sampleBody 2020 noFailure).1 = ControllerResult.ok sampleEnv ∧
    (ProductType.vsc, sampleBucket) ∈ sampleEnv.buckets ∧
    sampleQuote ∈ sampleBucket ∧
    (∃ vd pid raw,
      VehicleService.getVehicleDetails sampleBody.vin = some vd ∧
      raw ∈ (ProviderService.simulateProviderResponse pid
        (buildProviderRequest sampleBody vd (VehicleService.getStateFromZip sampleBody.zip)
          (availableProducts sampleBody.products
            (VehicleService.getStateFromZip sampleBody.zip)))
        2020).quotes ∧
      sampleQuote.id = raw.product_id ∧
      sampleQuote.provider = raw.providerName ∧
      sampleQuote.price = round2 (raw.retail_price * (providerConfig pid).markup)) :=
  ⟨by decide, by decide, by decide,
   claim1_price_is_marked_up_retail sampleBody 2020 noFailure sampleEnv ProductType.vsc
     sampleBucket sampleQuote (by decide) (by decide) (by decide)⟩

/-- C2: in every 200 response, each product bucket is the stable ascending
price sort of the fan-out bucket: pairwise sorted by price, and for every
price the subsequence at that price equals the fan-out subsequence (ties
keep provider-fanout order). -/
theorem claim2_buckets_sorted_stable (b : ValidatedBody) (year : ℤ)
    (fails : ProviderId → Bool) (env : Envelope) (p : ProductType)
    (qs : List AggregatedQuote)
    (h1 : (QuoteController.getQuotes b year fails).1 = ControllerResult.ok env)
    (h2 : (p, qs) ∈ env.buckets) :
    qs.map eraseTags =
      ProviderService.sortByKey (fun q => q.price) (fanoutBucket b year fails p) ∧
    qs.Pairwise (fun x y => x.price ≤ y.price) ∧
    ∀ c : ℚ, (qs.map eraseTags).filter (fun q => decide (q.price = c)) =
      (fanoutBucket b year fails p).filter (fun q => decide (q.price = c)) := by
  obtain ⟨vd, hvd, hp, rfl⟩ := getQuotes_ok_bucket b year fails env p qs h1 h2
  have hfb : fanoutBucket b year fails p =
      mergedBucket
        (ProviderService.providerResults
          (ProviderService.getEligibleProviders
            (availableProducts b.products (VehicleService.getStateFromZip b.zip)))
          (buildProviderRequest b vd (VehicleService.getStateFromZip b.zip)
            (availableProducts b.products (VehicleService.getStateFromZip b.zip)))
          year fails)
        (availableProducts b.products (VehicleService.getStateFromZip b.zip)) p := by
    unfold fanoutBucket
    rw [hvd]
  have htags : ∀ q ∈ ProviderService.sortByKey (fun q => q.price)
      (mergedBucket
        (ProviderService.providerResults
          (ProviderService.getEligibleProviders
            (availableProducts b.products (VehicleService.getStateFromZip b.zip)))
          (buildProviderRequest b vd (VehicleService.getStateFromZip b.zip)
            (availableProducts b.products (VehicleService.getStateFromZip b.zip)))
          year fails)
        (availableProducts b.products (VehicleService.getStateFromZip b.zip)) p),
      q.tags = [] := by
    intro q hq
    rw [ProviderService.mem_sortByKey] at hq
    exact tags_nil_mem_mergedBucket _ _ _ _ hq
  refine ⟨?_, ?_, ?_⟩
  · rw [hfb]
    exact map_eraseTags_applyTags _ _ htags
  · exact pairwise_price_applyTagsAux _ _ _ 0 (ProviderService.pairwise_sortByKey _ _)
  · intro c
    rw [hfb, map_eraseTags_applyTags _ _ htags]
    exact ProviderService.filter_sortByKey _ c _

/-- Witness for C2 at the sample request. -/
theorem claim2_buckets_sorted_stable_witness :
    (QuoteController.getQuotes sampleBody 2020 noFailure).1 = ControllerResult.ok sampleEnv ∧
    (ProductType.vsc, sampleBucket) ∈ sampleEnv.buckets ∧
    sampleBucket.Pairwise (fun x y => x.price ≤ y.price) :=
  ⟨by decide, by decide,
   (claim2_buckets_sorted_stable sampleBody 2020 noFailure sampleEnv ProductType.vsc
     sampleBucket (by decide) (by decide)).2.1⟩

/-- C3: in every bucket of a 200 response, index 0 carries "Best Value",
index `min(1, length - 1)` carries "Most Popular", and a single-quote bucket
carries both tags on its only entry. -/
theorem claim3_best_value_most_popular (b : ValidatedBody) (year : ℤ)
    (fails : ProviderId → Bool) (env : Envelope) (p : ProductType)
    (qs : List AggregatedQuote)
    (h1 : (QuoteController.getQuotes b year fails).1 = ControllerResult.ok env)
    (h2 : (p, qs) ∈ env.buckets) :
    (∀ q, listNth qs 0 = some q → "Best Value" ∈ q.tags) ∧
    (∀ q, listNth qs (min 1 (qs.length - 1)) = some q → "Most Popular" ∈ q.tags) ∧
    (∀ q, qs = [q] → "Best Value" ∈ q.tags ∧ "Most Popular" ∈ q.tags) := by
  obtain ⟨vd, hvd, hp, rfl⟩ := getQuotes_ok_bucket b year fails env p qs h1 h2
  have hBV : ∀ q, listNth (applyTags (dealerTruthy b.dealer_id)
      (ProviderService.sortByKey (fun q => q.price)
        (mergedBucket
          (ProviderService.providerResults
            (ProviderService.getEligibleProviders
              (availableProducts b.products (VehicleService.getStateFromZip b.zip)))
            (buildProviderRequest b vd (VehicleService.getStateFromZip b.zip)
              (availableProducts b.products (VehicleService.getStateFromZip b.zip)))
            year fails)
          (availableProducts b.products (VehicleService.getStateFromZip b.zip)) p))) 0 =
      some q → "Best Value" ∈ q.tags := by
    intro q hq
    rw [listNth_applyTags] at hq
    cases h0 : listNth (ProviderService.sortByKey (fun q => q.price)
        (mergedBucket
          (ProviderService.providerResults
            (ProviderService.getEligibleProviders
              (availableProducts b.products (VehicleService.getStateFromZip b.zip)))
            (buildProviderRequest b vd (VehicleService.getStateFromZip b.zip)
              (availableProducts b.products (VehicleService.getStateFromZip b.zip)))
            year fails)
          (availableProducts b.products (VehicleService.getStateFromZip b.zip)) p)) 0 with
    | none => rw [h0] at hq; cases hq
    | some q₀ =>
      rw [h0] at hq
      injection hq with hq
      rw [← hq]
      exact List.mem_append.mpr (Or.inr (bestValue_mem_tagsFor _ _))
  have hMP : ∀ q, listNth (applyTags (dealerTruthy b.dealer_id)
      (ProviderService.sortByKey (fun q => q.price)
        (mergedBucket
          (ProviderService.providerResults
            (ProviderService.getEligibleProviders
              (availableProducts b.products (VehicleService.getStateFromZip b.zip)))
            (buildProviderRequest b vd (VehicleService.getStateFromZip b.zip)
              (availableProducts b.products (VehicleService.getStateFromZip b.zip)))
            year fails)
          (availableProducts b.products (VehicleService.getStateFromZip b.zip)) p)))
      (min 1 ((applyTags (dealerTruthy b.dealer_id)
        (ProviderService.sortByKey (fun q => q.price)
          (mergedBucket
            (ProviderService.providerResults
              (ProviderService.getEligibleProviders
                (availableProducts b.products (VehicleService.getStateFromZip b.zip)))
              (buildProviderRequest b vd (VehicleService.getStateFromZip b.zip)
                (availableProducts b.products (VehicleService.getStateFromZip b.zip)))
              year fails)
            (availableProducts b.products (VehicleService.getStateFromZip b.zip)) p))).length
        - 1)) = some q → "Most Popular" ∈ q.tags := by
    intro q hq
    rw [length_applyTags, listNth_applyTags] at hq
    cases h0 : listNth (ProviderService.sortByKey (fun q => q.price)
        (mergedBucket
          (ProviderService.providerResults
            (ProviderService.getEligibleProviders
              (availableProducts b.products (VehicleService.getStateFromZip b.zip)))
            (buildProviderRequest b vd (VehicleService.getStateFromZip b.zip)
              (availableProducts b.products (VehicleService.getStateFromZip b.zip)))
            year fails)
          (availableProducts b.products (VehicleService.getStateFromZip b.zip)) p))
        (min 1 ((ProviderService.sortByKey (fun q => q.price)
          (mergedBucket
            (ProviderService.providerResults
              (ProviderService.getEligibleProviders
                (availableProducts b.products (VehicleService.getStateFromZip b.zip)))
              (buildProviderRequest b vd (VehicleService.getStateFromZip b.zip)
                (availableProducts b.products (VehicleService.getStateFromZip b.zip)))
              year fails)
            (availableProducts b.products (VehicleService.getStateFromZip b.zip)) p)).length
          - 1)) with
    | none => rw [h0] at hq; cases hq
    | some q₀ =>
      rw [h0] at hq
      injection hq with hq
      rw [← hq]
      exact List.mem_append.mpr (Or.inr (mostPopular_mem_tagsFor _ _))
  refine ⟨hBV, hMP, ?_⟩
  intro q hq
  refine ⟨hBV q (by rw [hq]; rfl), hMP q ?_⟩
  rw [hq]
  simp [listNth]

/-- Witness for C3 at the sample request. -/
theorem claim3_best_value_most_popular_witness :
    (QuoteController.getQuotes sampleBody 2020 noFailure).1 = ControllerResult.ok sampleEnv ∧
    (ProductType.vsc, sampleBucket) ∈ sampleEnv.buckets ∧
    (∀ q, listNth sampleBucket 0 = some q → "Best Value" ∈ q.tags) :=
  ⟨by decide, by decide,
   (claim3_best_value_most_popular sampleBody 2020 noFailure sampleEnv ProductType.vsc
     sampleBucket (by decide) (by decide)).1⟩

/-- C4 counterexample: the claim says a request whose dealer identifier is
the literal "direct" gets no "Dealer Recommended" tag, but the code tests
only JS truthiness of `dealer_id`, so the quote at index 2 of the vsc
bucket is tagged. -/
theorem claim4_counterexample :
    directDealerBody.dealer_id = some "direct" ∧
    (listNth (bucketFor (QuoteController.getQuotes directDealerBody 2020 noFailure).1
        ProductType.vsc) 2).map (fun q => decide ("Dealer Recommended" ∈ q.tags)) =
      some true := by
  exact ⟨rfl, by decide⟩

/-- C4 (amended): the tagging condition is JS truthiness of the raw
`dealer_id` (any non-empty string, including the literal "direct"), not
"supplied and not direct". Under a truthy dealer id, every bucket with more
than 2 quotes has exactly one "Dealer Recommended" tag, at index 2; with a
falsy dealer id or at most 2 quotes there is no such tag. -/
theorem claim4_dealer_recommended_amended (b : ValidatedBody) (year : ℤ)
    (fails : ProviderId → Bool) (env : Envelope) (p : ProductType)
    (qs : List AggregatedQuote)
    (h1 : (QuoteController.getQuotes b year fails).1 = ControllerResult.ok env)
    (h2 : (p, qs) ∈ env.buckets) :
    (dealerTruthy b.dealer_id = true → 2 < qs.length →
      (∃ q2, listNth qs 2 = some q2 ∧ "Dealer Recommended" ∈ q2.tags) ∧
      (∀ i q, listNth qs i = some q → "Dealer Recommended" ∈ q.tags → i = 2)) ∧
    ((dealerTruthy b.dealer_id = false ∨ qs.length ≤ 2) →
      ∀ q ∈ qs, "Dealer Recommended" ∉ q.tags) := by
  obtain ⟨vd, hvd, hp, rfl⟩ := getQuotes_ok_bucket b year fails env p qs h1 h2
  generalize hL : ProviderService.sortByKey (fun q => q.price)
      (mergedBucket
        (ProviderService.providerResults
          (ProviderService.getEligibleProviders
            (availableProducts b.products (VehicleService.getStateFromZip b.zip)))
          (buildProviderRequest b vd (VehicleService.getStateFromZip b.zip)
            (availableProducts b.products (VehicleService.getStateFromZip b.zip)))
          year fails)
        (availableProducts b.products (VehicleService.getStateFromZip b.zip)) p) = L
  have htags : ∀ q ∈ L, q.tags = [] := by
    intro q hq
    rw [← hL, ProviderService.mem_sortByKey] at hq
    exact tags_nil_mem_mergedBucket _ _ _ _ hq
  constructor
  · intro hd hlen2
    rw [length_applyTags] at hlen2
    constructor
    · obtain ⟨q₀, h0⟩ := listNth_some_of_lt hlen2
      have h2nd := listNth_applyTags (dealerTruthy b.dealer_id) L 2
      rw [h0] at h2nd
      refine ⟨_, h2nd, ?_⟩
      exact List.mem_append.mpr (Or.inr
        ((dealer_mem_tagsFor _ _ 2).mpr ⟨hd, hlen2, rfl⟩))
    · intro i q hq hDR
      rw [listNth_applyTags] at hq
      cases h0 : listNth L i with
      | none => rw [h0] at hq; cases hq
      | some q₀ =>
        rw [h0] at hq
        injection hq with hq
        rw [← hq] at hDR
        have ht0 : q₀.tags = [] := htags q₀ (listNth_mem h0)
        have hDR' : "Dealer Recommended" ∈ q₀.tags ++ tagsFor _ _ i := hDR
        rcases List.mem_append.mp hDR' with h | h
        · rw [ht0] at h
          cases h
        · exact ((dealer_mem_tagsFor _ _ _).mp h).2.2
  · intro hneg q hq
    obtain ⟨i, q₀, h0, rfl⟩ := mem_applyTags _ _ q hq
    have ht0 : q₀.tags = [] := htags q₀ (listNth_mem h0)
    intro hDR
    have hDR' : "Dealer Recommended" ∈ q₀.tags ++ tagsFor _ _ i := hDR
    rcases List.mem_append.mp hDR' with h | h
    · rw [ht0] at h
      cases h
    · obtain ⟨hd, hn, -⟩ := (dealer_mem_tagsFor _ _ _).mp h
      rcases hneg with hneg | hneg
      · rw [hneg] at hd
        cases hd
      · rw [length_applyTags] at hneg
        omega

/-- Witness for the amended C4 at the sample request (truthy dealer id,
six quotes in the bucket). -/
theorem claim4_dealer_recommended_amended_witness :
    (QuoteController.getQuotes sampleBody 2020 noFailure).1 = ControllerResult.ok sampleEnv ∧
    (ProductType.vsc, sampleBucket) ∈ sampleEnv.buckets ∧
    dealerTruthy sampleBody.dealer_id = true ∧
    2 < sampleBucket.length ∧
    (∃ q2, listNth sampleBucket 2 = some q2 ∧ "Dealer Recommended" ∈ q2.tags) :=
  ⟨by decide, by decide, by decide, by decide,
   ((claim4_dealer_recommended_amended sampleBody 2020 noFailure sampleEnv ProductType.vsc
     sampleBucket (by decide) (by decide)).1 (by decide) (by decide)).1⟩

/-- C5: when every requested product is restricted in the resolved state
(empty available set), the controller returns a 200 envelope with no
product buckets, "ineligible" eligibility, the restricted products and the
state in the meta, and calls no provider. -/
theorem claim5_all_restricted_short_circuit (b : ValidatedBody) (year : ℤ)
    (fails : ProviderId → Bool)
    (hvin : b.vin.length = 17)
    (hav : availableProducts b.products (VehicleService.getStateFromZip b.zip) = []) :
    QuoteController.getQuotes b year fails =
      (ControllerResult.ok
        { buckets := []
          meta := { vehicle_eligibility := "ineligible"
                    coverage_disclaimer := "No products available in your state."
                    state_restrictions := some
                      (restrictedProducts b.products (VehicleService.getStateFromZip b.zip),
                       VehicleService.getStateFromZip b.zip) } }, []) := by
  unfold QuoteController.getQuotes
  rw [getVehicleDetails_some b.vin hvin]
  dsimp only
  rw [if_pos hav]
  rfl

/-- Witness for C5: gap requested from a CA zip code. -/
theorem claim5_all_restricted_short_circuit_witness :
    restrictedBody.vin.length = 17 ∧
    availableProducts restrictedBody.products
      (VehicleService.getStateFromZip restrictedBody.zip) = [] ∧
    QuoteController.getQuotes restrictedBody 2020 noFailure =
      (ControllerResult.ok
        { buckets := []
          meta := { vehicle_eligibility := "ineligible"
                    coverage_disclaimer := "No products available in your state."
                    state_restrictions := some ([ProductType.gap], "CA") } }, []) :=
  ⟨by decide, by decide,
   claim5_all_restricted_short_circuit restrictedBody 2020 noFailure (by decide) (by decide)⟩

/-- C6 counterexample: for a 2026 vehicle with mileage 100 in year 2026,
provider A's premium VSC quote has retail_price 801 and dealer_cost 480,
but `round(retail_price * 0.6) = 481`: dealer_cost is computed from the
unrounded base price, not from retail_price as the claim states. -/
theorem claim6_counterexample :
    c6Quote ∈ ProviderService.generateVscQuotes ProviderId.providerA c6Vehicle 2026 ∧
    c6Quote.retail_price = 801 ∧
    c6Quote.dealer_cost = 480 ∧
    jsRound (c6Quote.retail_price * 0.6) = 481 := by
  exact ⟨by decide, by decide, by decide, by decide⟩

/-- C6 (amended): every VSC quote satisfies
`retail_price = round(base * ageFactor * mileageFactor)` and
`dealer_cost = round(base * ageFactor * mileageFactor * 0.6)` — the 0.6 is
applied to the unrounded base price, not to the rounded retail price. -/
theorem claim6_vsc_prices_amended (pid : ProviderId) (v : VehicleInfo) (year : ℤ)
    (q : RawQuote) (hq : q ∈ ProviderService.generateVscQuotes pid v year) :
    ∃ base : ℚ, (base = 800 ∨ base = 700 ∨ base = 500) ∧
      q.retail_price = (jsRound (base * ProviderService.vscAgeFactor (year - v.year) *
        ProviderService.vscMileageFactor v.mileage) : ℚ) ∧
      q.dealer_cost = (jsRound (base * ProviderService.vscAgeFactor (year - v.year) *
        ProviderService.vscMileageFactor v.mileage * 0.6) : ℚ) := by
  unfold ProviderService.generateVscQuotes at hq
  split at hq
  · cases hq
  · rw [List.mem_append, List.mem_append] at hq
    rcases hq with (h | h) | h
    · split at h
      · rw [List.mem_singleton] at h
        subst h
        exact ⟨800, Or.inl rfl, rfl, rfl⟩
      · cases h
    · split at h
      · rw [List.mem_singleton] at h
        subst h
        exact ⟨700, Or.inr (Or.inl rfl), rfl, rfl⟩
      · cases h
    · split at h
      · rw [List.mem_singleton] at h
        subst h
        exact ⟨500, Or.inr (Or.inr rfl), rfl, rfl⟩
      · cases h

/-- Witness for the amended C6 at the premium quote of `c6Vehicle`. -/
theorem claim6_vsc_prices_amended_witness :
    c6Quote ∈ ProviderService.generateVscQuotes ProviderId.providerA c6Vehicle 2026 ∧
    (∃ base : ℚ, (base = 800 ∨ base = 700 ∨ base = 500) ∧
      c6Quote.retail_price = (jsRound (base *
        ProviderService.vscAgeFactor (2026 - c6Vehicle.year) *
        ProviderService.vscMileageFactor c6Vehicle.mileage) : ℚ) ∧
      c6Quote.dealer_cost = (jsRound (base *
        ProviderService.vscAgeFactor (2026 - c6Vehicle.year) *
        ProviderService.vscMileageFactor c6Vehicle.mileage * 0.6) : ℚ)) :=
  ⟨by decide,
   claim6_vsc_prices_amended ProviderId.providerA c6Vehicle 2026 c6Quote (by decide)⟩

/-- C7: with a valid VIN the aggregation always returns a 200 result no
matter which provider calls throw; every quote in every bucket comes from a
provider whose call did not throw; and the fan-out settles one entry per
eligible provider, a thrown call being captured as null. -/
theorem claim7_provider_failures_absorbed (b : ValidatedBody) (year : ℤ)
    (fails : ProviderId → Bool) (h17 : b.vin.length = 17) :
    (QuoteController.getQuotes b year fails).1.isOk = true ∧
    (∀ env p qs q, (QuoteController.getQuotes b year fails).1 = ControllerResult.ok env →
      (p, qs) ∈ env.buckets → q ∈ qs →
      ∃ pid, fails pid = false ∧ q.provider = (providerConfig pid).name) ∧
    (∀ request : ProviderRequest,
      (ProviderService.getQuotesFromAllProviders request year fails).map Prod.fst =
        ProviderService.getEligibleProviders request.options.products ∧
      (∀ pid r, (pid, r) ∈ ProviderService.getQuotesFromAllProviders request year fails →
        r = if fails pid then none
            else some (ProviderService.simulateProviderResponse pid request year))) := by
  refine ⟨getQuotes_isOk_of_vin17 b year fails h17, ?_, ?_⟩
  · intro env p qs q h1 h2 h3
    obtain ⟨vd, pid, raw, hvd, hf, hraw, -, -, hprov, -⟩ :=
      bucket_quote_provenance b year fails env p qs q h1 h2 h3
    refine ⟨pid, hf, ?_⟩
    rw [hprov]
    exact providerName_simulate _ _ _ _ hraw
  · intro request
    exact ⟨map_fst_providerResults _ _ _ _,
      fun pid r h => (mem_providerResults _ _ _ _ _ _ h).2⟩

/-- Witness for C7 at the sample request with provider B failing. -/
theorem claim7_provider_failures_absorbed_witness :
    sampleBody.vin.length = 17 ∧
    (QuoteController.getQuotes sampleBody 2020
      (fun pid => decide (pid = ProviderId.providerB))).1.isOk = true :=
  ⟨by decide,
   (claim7_provider_failures_absorbed sampleBody 2020
     (fun pid => decide (pid = ProviderId.providerB)) (by decide)).1⟩

/-- C8: two requests with identical fingerprint fields, the second arriving
within the 600-second TTL of the cache entry written for the first (a cache
miss), receive identical responses — byte-identical JSON, since the JSON
serialization is a function of the response value; and every cache entry
added by a call expires no later than 600 seconds after being written. -/
theorem claim8_cache_idempotent_ttl (c0 : CacheState) (t1 t2 : ℕ) (b : ValidatedBody)
    (y1 y2 : ℤ) (f1 f2 : ProviderId → Bool)
    (hmiss : cacheGet c0 (cacheKeyOf b) t1 = none)
    (h12 : t1 ≤ t2) (httl : t2 < t1 + 600) :
    (QuoteController.getQuotesCached
        ((QuoteController.getQuotesCached c0 t1 b y1 f1).2) t2 b y2 f2).1.1 =
      (QuoteController.getQuotesCached c0 t1 b y1 f1).1.1 ∧
    (∀ e ∈ (QuoteController.getQuotesCached c0 t1 b y1 f1).2,
      e ∈ c0 ∨ e.2.2 ≤ t1 + 600) := by
  have hm2 : cacheGet c0 (cacheKeyOf b) t2 = none :=
    cacheGet_none_mono c0 (cacheKeyOf b) t1 t2 hmiss h12
  cases hvd : VehicleService.getVehicleDetails b.vin with
  | none =>
    rw [getQuotesCached_missBadVin c0 t1 b y1 f1 hmiss hvd]
    dsimp only
    rw [getQuotesCached_missBadVin c0 t2 b y2 f2 hm2 hvd]
    exact ⟨rfl, fun e he => Or.inl he⟩
  | some vd =>
    by_cases hav :
        availableProducts b.products (VehicleService.getStateFromZip b.zip) = []
    · rw [getQuotesCached_missIneligible c0 t1 b y1 f1 vd hmiss hvd hav]
      dsimp only
      rw [getQuotesCached_missIneligible c0 t2 b y2 f2 vd hm2 hvd hav]
      exact ⟨rfl, fun e he => Or.inl he⟩
    · rw [getQuotesCached_missEligible c0 t1 b y1 f1 vd hmiss hvd hav]
      dsimp only
      have hhit : cacheGet
          (cacheSet c0 (cacheKeyOf b) (pipelineEnv b vd y1 f1) (t1 + 600))
          (cacheKeyOf b) t2 = some (pipelineEnv b vd y1 f1) := by
        unfold cacheSet cacheGet
        rw [if_pos rfl, if_pos httl]
      have hsecond : QuoteController.getQuotesCached
          (cacheSet c0 (cacheKeyOf b) (pipelineEnv b vd y1 f1) (t1 + 600)) t2 b y2 f2 =
          ((ControllerResult.ok (pipelineEnv b vd y1 f1), []),
           cacheSet c0 (cacheKeyOf b) (pipelineEnv b vd y1 f1) (t1 + 600)) := by
        unfold QuoteController.getQuotesCached
        rw [hhit]
      rw [hsecond]
      refine ⟨rfl, ?_⟩
      intro e he
      rcases List.mem_cons.mp he with rfl | he
      · exact Or.inr (Nat.le_refl _)
      · exact Or.inl he

/-- Witness for C8: empty initial cache, first call at time 0, second at
time 10, with different years and failure oracles for the two calls. -/
theorem claim8_cache_idempotent_ttl_witness :
    cacheGet [] (cacheKeyOf sampleBody) 0 = none ∧
    (0 : ℕ) ≤ 10 ∧
    (10 : ℕ) < 0 + 600 ∧
    (QuoteController.getQuotesCached
        ((QuoteController.getQuotesCached [] 0 sampleBody 2020 noFailure).2) 10 sampleBody
        2021 (fun pid => decide (pid = ProviderId.providerB))).1.1 =
      (QuoteController.getQuotesCached [] 0 sampleBody 2020 noFailure).1.1 :=
  ⟨rfl, by decide, by decide,
   (claim8_cache_idempotent_ttl [] 0 10 sampleBody 2020 2021 noFailure
     (fun pid => decide (pid = ProviderId.providerB)) rfl (by decide) (by decide)).1⟩

/-- C9 counterexample: a request body missing the products field passes
validation — Joi fills the default ["vsc"] — and yields a 200 envelope,
not a 400. -/
theorem claim9_counterexample :
    noProductsBody.products = none ∧
    (postQuotes noProductsBody 2020 noFailure).1.isOk = true :=
  ⟨rfl, by decide⟩

/-- C9 (amended): a body missing vin or zip yields a 400 "Invalid request
data"; a missing products field does not yield a 400 — validation defaults
it to ["vsc"] and the request proceeds. -/
theorem claim9_validation_amended (b : RequestBody) (year : ℤ)
    (fails : ProviderId → Bool) :
    ((b.vin = none ∨ b.zip = none) →
      (postQuotes b year fails).1 = ControllerResult.badRequest "Invalid request data") ∧
    (∀ vb, b.products = none → validateQuoteRequest b = some vb →
      vb.products = [ProductType.vsc]) := by
  constructor
  · intro h
    have hv : validateQuoteRequest b = none := by
      unfold validateQuoteRequest
      rcases h with h | h
      · rw [h]
      · cases hvin : b.vin with
        | none => rfl
        | some v =>
          rw [h]
    unfold postQuotes
    rw [hv]
  · intro vb hp hval
    unfold validateQuoteRequest at hval
    cases hvin : b.vin with
    | none =>
      rw [hvin] at hval
      exact Option.noConfusion hval
    | some v =>
      rw [hvin] at hval
      cases hzip : b.zip with
      | none =>
        rw [hzip] at hval
        exact Option.noConfusion hval
      | some z =>
        rw [hzip] at hval
        cases hm : b.mileage with
        | none =>
          rw [hm] at hval
          exact Option.noConfusion hval
        | some m =>
          rw [hm] at hval
          cases hpr : b.price with
          | none =>
            rw [hpr] at hval
            exact Option.noConfusion hval
          | some pr =>
            rw [hpr] at hval
            dsimp only at hval
            split at hval
            · rw [hp] at hval
              injection hval with hval
              rw [← hval]
            · exact Option.noConfusion hval

/-- Witness for the amended C9: a body with no vin is rejected with 400. -/
theorem claim9_validation_amended_witness :
    noVinBody.vin = none ∧
    (postQuotes noVinBody 2020 noFailure).1 =
      ControllerResult.badRequest "Invalid request data" :=
  ⟨rfl, (claim9_validation_amended noVinBody 2020 noFailure).1 (Or.inl rfl)⟩

/-- C10: every 17-character VIN yields a vehicle object (unknown year, make
and model codes fall back to 2018, "Ford" and "F-150"), so for a validated
request the "Invalid VIN or vehicle details not found" branch of getQuotes
is unreachable. -/
theorem claim10_vin17_vehicle_always_found (vin : String) (h17 : vin.length = 17) :
    (VehicleService.getVehicleDetails vin).isSome = true ∧
    (∀ c, VehicleService.yearCodes.lookup c = none →
      VehicleService.decodeModelYear c = 2018) ∧
    (∀ c, VehicleService.makeCodes.lookup c = none →
      VehicleService.decodeMake c = "Ford") ∧
    (∀ s, VehicleService.modelMap.lookup s = none →
      VehicleService.decodeModel s = "F-150") ∧
    (∀ (b : ValidatedBody) (year : ℤ) (fails : ProviderId → Bool), b.vin = vin →
      (QuoteController.getQuotes b year fails).1 ≠
        ControllerResult.badRequest invalidVinMessage) := by
  refine ⟨?_, ?_, ?_, ?_, ?_⟩
  · rw [getVehicleDetails_some vin h17]
    rfl
  · intro c hc
    unfold VehicleService.decodeModelYear
    rw [hc]
    rfl
  · intro c hc
    unfold VehicleService.decodeMake
    rw [hc]
    rfl
  · intro s hs
    unfold VehicleService.decodeModel
    rw [hs]
    rfl
  · intro b year fails hb hcontra
    have hOk := getQuotes_isOk_of_vin17 b year fails (by rw [hb]; exact h17)
    rw [hcontra] at hOk
    exact Bool.noConfusion hOk

/-- Witness for C10 at a concrete 17-character VIN. -/
theorem claim10_vin17_vehicle_always_found_witness :
    ("1FTFW1ET5DFC10312" : String).length = 17 ∧
    (VehicleService.getVehicleDetails "1FTFW1ET5DFC10312").isSome = true :=
  ⟨by decide, (claim10_vin17_vehicle_always_found "1FTFW1ET5DFC10312" (by decide)).1⟩

end ClaimTheorems

end AutoQuote
